import Mathlib

/-!
Shallow embedding of the second-state/payment-link service
(src/main.py, src/database.py) and proofs about its behaviour.

The SQLite table `payments` is modelled as an association list from
payment id to record; the external `x402_payment_service` collaborator
(parse / verify / settle / response) is modelled as an oracle record
`Env` whose fields give the outcome of each call, including the
possibility of a raised exception (`Except.error`).  The `pay` endpoint
is translated branch by branch from `main.py`, returning the HTTP-level
response, the resulting store, and the trace of collaborator / store
steps it invoked.
-/

namespace PaymentLink

/-- A row of the `payments` table (database.py, `init_db`).
`amount REAL` is modelled as `Rat`: the service never computes with the
amount, it only compares it with 0 and passes it through. -/
structure PaymentRecord where
  amount : Rat
  receiver : String
  status : String
  txHash : Option String
  createdAt : Nat
  updatedAt : Nat
  deriving DecidableEq, Repr

/-- The `payments` table: association list keyed by `payment_id`
(TEXT PRIMARY KEY). -/
abbrev Store := List (String × PaymentRecord)

/-- `get_payment` (database.py): `SELECT * FROM payments WHERE payment_id = ?`,
first matching row or `None`. -/
def get_payment (db : Store) (pid : String) : Option PaymentRecord :=
  match db with
  | [] => none
  | (k, r) :: rest => if k = pid then some r else get_payment rest pid

/-- `create_payment` (database.py): `INSERT` of a fresh `pending` row with
NULL `tx_hash`; the PRIMARY KEY constraint makes the insert raise on a
duplicate id, modelled as `none`. -/
def create_payment (db : Store) (pid : String) (amount : Rat) (receiver : String)
    (now : Nat) : Option Store :=
  if (get_payment db pid).isSome then none
  else some ((pid, { amount := amount, receiver := receiver, status := "pending",
                     txHash := none, createdAt := now, updatedAt := now }) :: db)

/-- Python truthiness of the `tx_hash: str | None` argument: `None` and the
empty string are falsy (`if tx_hash:` in database.py). -/
def txTruthy : Option String → Bool
  | none => false
  | some s => s ≠ ""

/-- The per-row effect of `update_payment_status`: always sets `status` and
refreshes `updated_at`; writes `tx_hash` only when the argument is truthy. -/
def applyStatusUpdate (r : PaymentRecord) (status : String) (tx : Option String)
    (now : Nat) : PaymentRecord :=
  if txTruthy tx then
    { r with status := status, txHash := tx, updatedAt := now }
  else
    { r with status := status, updatedAt := now }

/-- `update_payment_status` (database.py): `UPDATE payments SET ... WHERE
payment_id = ?`; updates every row whose key matches (the primary key makes
that at most one), leaves the rest untouched, no error when the id is absent. -/
def update_payment_status (db : Store) (pid status : String) (tx : Option String)
    (now : Nat) : Store :=
  match db with
  | [] => []
  | (k, r) :: rest =>
      (k, if k = pid then applyStatusUpdate r status tx now else r) ::
        update_payment_status rest pid status tx now

/-! ### The x402 collaborator oracle -/

/-- Result of `payment_service.parse()` when it returns (main.py step 1):
the 4-tuple `(success, payment, selected_requirements, parse_error)`.
Payments and requirements are opaque to this service; they are modelled
as strings. -/
structure ParseResult where
  success : Bool
  payment : Option String
  selected : Option String
  error : Option String
  deriving DecidableEq, Repr

/-- Result of `payment_service.verify(...)` when it returns (step 2):
`(is_valid, verify_error)`. -/
structure VerifyResult where
  isValid : Bool
  error : Option String
  deriving DecidableEq, Repr

/-- Result of `payment_service.settle(...)` when it returns (step 3):
`(settle_success, tx_hash, tx_network, settle_error)`. -/
structure SettleResult where
  success : Bool
  txHash : Option String
  txNetwork : Option String
  error : Option String
  deriving DecidableEq, Repr

/-- Body returned by `payment_service.response(error)`: a `str` (rendered
for a browser) or a structured document (rendered as JSON). -/
inductive X402Content where
  | text (body : String)
  | structured (body : String)
  deriving DecidableEq, Repr

/-- Oracle for everything outside the orchestrator's own code: the
`x402_payment_service` collaborator (each call either returns a value or
raises, `Except.error` being a raised exception) and the fallibility of
the two store calls made by `pay`. -/
structure Env where
  /-- whether `from x402_payment_service import PaymentService` succeeded -/
  serviceAvailable : Bool
  /-- outcome of the `PaymentService(...)` constructor -/
  construct : Except String Unit
  /-- outcome of `payment_service.parse()` -/
  parse : Except String ParseResult
  /-- outcome of `payment_service.verify(payment, selected, payment_id)` -/
  verify : String → String → String → Except String VerifyResult
  /-- outcome of `payment_service.settle(payment, selected, payment_id)` -/
  settle : String → String → String → Except String SettleResult
  /-- `payment_service.response(error)`: challenge body and status code -/
  respond : String → X402Content × Nat
  /-- exception raised by `get_payment`, if any -/
  getFault : Option String
  /-- exception raised by `update_payment_status`, if any -/
  updateFault : Option String
  /-- value of CURRENT_TIMESTAMP during this request -/
  now : Nat

/-- HTTP-level response of the `pay` endpoint. -/
inductive Response where
  /-- 404 `{"error": "Payment not found"}` -/
  | notFound
  /-- 200 `{"status": "paid", "tx": tx}` -/
  | paid (tx : Option String)
  /-- 500 JSON error (direct or via the global exception handler) -/
  | internalError (msg : String)
  /-- `create_x402_response` → `HTMLResponse(content, status_code)` -/
  | challengeHtml (body : String) (code : Nat)
  /-- `create_x402_response` → `JSONResponse(content, status_code)` -/
  | challengeJson (body : String) (code : Nat)
  deriving DecidableEq, Repr

/-- The HTTP status code of a response (`paid` is a plain 200 JSON). -/
def Response.statusCode : Response → Nat
  | .notFound => 404
  | .paid _ => 200
  | .internalError _ => 500
  | .challengeHtml _ c => c
  | .challengeJson _ c => c

/-- Whether the response is an internal-error (500) response. -/
def Response.isInternalError : Response → Bool
  | .internalError _ => true
  | _ => false

/-- Whether the response is a payment-required challenge produced by
`create_x402_response`. -/
def Response.isChallenge : Response → Bool
  | .challengeHtml _ _ => true
  | .challengeJson _ _ => true
  | _ => false

/-- `create_x402_response` (main.py): render the service's challenge either
as HTML (when the body is a `str`) or as JSON. -/
def create_x402_response (respond : String → X402Content × Nat)
    (error : String) : Response :=
  match respond error with
  | (.text body, code) => .challengeHtml body code
  | (.structured body, code) => .challengeJson body code

/-- Python `x or y` on an optional string: `None` and `""` are falsy. -/
def orDefault (o : Option String) (d : String) : String :=
  match o with
  | none => d
  | some s => if s = "" then d else s

/-- One collaborator or store step invoked during a `pay` run. -/
inductive Effect where
  | construct
  | parse
  | verify
  | settle
  | storeUpdate
  deriving DecidableEq, Repr

/-- Outcome of one `pay` request: the response sent to the caller, the
store after the request, and the steps that were invoked. -/
structure PayOutcome where
  response : Response
  db : Store
  effects : List Effect
  deriving Repr

/-- The body of the `pay` endpoint (main.py), before FastAPI's global
exception handler: `raised` marks an exception escaping the handler body
(only the unwrapped store calls can do that). -/
def pay_raw (env : Env) (db : Store) (pid : String) : Except (String × Store × List Effect) PayOutcome :=
  match env.getFault with
  | some m => .error (m, db, [])
  | none =>
  match get_payment db pid with
  | none => .ok ⟨.notFound, db, []⟩
  | some record =>
  if record.status = "paid" then
    .ok ⟨.paid record.txHash, db, []⟩
  else if env.serviceAvailable = false then
    .ok ⟨.internalError "x402_payment_service not installed", db, []⟩
  else
  match env.construct with
  | .error e => .ok ⟨.internalError ("Failed to initialize payment service: " ++ e), db, [.construct]⟩
  | .ok () =>
  match env.parse with
  | .error e => .ok ⟨.internalError ("Failed to parse payment: " ++ e), db, [.construct, .parse]⟩
  | .ok pr =>
  if pr.success = false ∨ pr.error ≠ none then
    .ok ⟨create_x402_response env.respond (orDefault pr.error "Payment required"), db, [.construct, .parse]⟩
  else
  match pr.payment, pr.selected with
  | none, _ => .ok ⟨create_x402_response env.respond "Invalid payment data", db, [.construct, .parse]⟩
  | some _, none => .ok ⟨create_x402_response env.respond "Invalid payment data", db, [.construct, .parse]⟩
  | some payment, some selected =>
  match env.verify payment selected pid with
  | .error e => .ok ⟨.internalError ("Failed to verify payment: " ++ e), db, [.construct, .parse, .verify]⟩
  | .ok vr =>
  if vr.isValid = false then
    .ok ⟨create_x402_response env.respond (orDefault vr.error "Payment verification failed"), db, [.construct, .parse, .verify]⟩
  else
  match env.settle payment selected pid with
  | .error e => .ok ⟨.internalError ("Failed to settle payment: " ++ e), db, [.construct, .parse, .verify, .settle]⟩
  | .ok sr =>
  if sr.success = false then
    .ok ⟨create_x402_response env.respond (orDefault sr.error "Payment settlement failed"), db, [.construct, .parse, .verify, .settle]⟩
  else
  match env.updateFault with
  | some m => .error (m, db, [.construct, .parse, .verify, .settle, .storeUpdate])
  | none =>
    .ok ⟨.paid sr.txHash, update_payment_status db pid "paid" sr.txHash env.now,
         [.construct, .parse, .verify, .settle, .storeUpdate]⟩

/-- `global_exception_handler` (main.py): any exception escaping the
endpoint body becomes a 500 JSON response. -/
def global_exception_handler (exc : String) : Response :=
  .internalError exc

/-- The `pay` endpoint as observed by the client: the endpoint body with
FastAPI's registered global exception handler around it.  A store-level
exception leaves the record untouched (each `update_payment_status` call
commits atomically or rolls back when its connection closes). -/
def pay (env : Env) (db : Store) (pid : String) : PayOutcome :=
  match pay_raw env db pid with
  | .ok out => out
  | .error (m, db', fx) => ⟨global_exception_handler m, db', fx⟩

/-! ### Link issuance and status inquiry -/

/-- Result of `GET /create-payment-link`. -/
inductive IssueResult where
  /-- 200 `{"payment_id", "payment_url", "amount", "receiver"}` -/
  | ok (paymentId paymentUrl : String) (amount : Rat) (receiver : String)
  /-- 422 validation error produced by FastAPI's `Query` validation -/
  | validationError
  /-- 500: an exception (duplicate primary key) via the global handler -/
  | internalError
  deriving DecidableEq, Repr

/-- Base URL from config.py (`APP_BASE_URL`, default shown). -/
def app_base_url : String := "http://localhost:8000"

/-- `create_payment_link` (main.py) together with FastAPI's parameter
validation: `amount: float = Query(..., gt=0)` rejects a missing amount or
`amount ≤ 0` with 422; `receiver: str = Query(...)` rejects only a missing
parameter (no emptiness constraint).  The fresh `uuid.uuid4()` is modelled
as the argument `newId`. -/
def create_payment_link (db : Store) (newId : String) (amount : Option Rat)
    (receiver : Option String) (now : Nat) : IssueResult × Store :=
  match amount, receiver with
  | some a, some rcv =>
      if 0 < a then
        match create_payment db newId a rcv now with
        | some db' =>
            (.ok newId (app_base_url ++ "/pay/" ++ newId) a rcv, db')
        | none => (.internalError, db)
      else (.validationError, db)
  | _, _ => (.validationError, db)

/-- Result of `GET /status/{payment_id}`. -/
inductive StatusResponse where
  /-- 404 `{"error": "Payment not found"}` -/
  | notFound
  /-- 200 `{"payment_id", "amount", "paid", "tx"}` -/
  | ok (paymentId : String) (amount : Rat) (paid : Bool) (tx : Option String)
  deriving DecidableEq, Repr

/-- `get_payment_status` (main.py): read-only status inquiry. -/
def get_payment_status (db : Store) (pid : String) : StatusResponse :=
  match get_payment db pid with
  | none => .notFound
  | some r => .ok pid r.amount (r.status = "paid") r.txHash

end PaymentLink

/-! ### Store lemmas -/

namespace PaymentLink

/-- Looking up any key after `update_payment_status`: the targeted key's
record (if present) has the update applied, all other keys are untouched. -/
theorem get_payment_update (db : Store) (pid q status : String)
    (tx : Option String) (now : Nat) :
    get_payment (update_payment_status db pid status tx now) q =
      if q = pid then (get_payment db q).map (fun r => applyStatusUpdate r status tx now)
      else get_payment db q := by
  induction db with
  | nil => by_cases h : q = pid <;> simp [update_payment_status, get_payment, h]
  | cons kr rest ih =>
      obtain ⟨k, r⟩ := kr
      by_cases hkp : k = pid
      · by_cases hkq : k = q
        · subst hkp; subst hkq
          simp [update_payment_status, get_payment]
        · subst hkp
          have hqk : ¬ q = k := fun h => hkq h.symm
          simp [update_payment_status, get_payment, hkq, hqk, ih]
      · by_cases hkq : k = q
        · subst hkq
          simp [update_payment_status, get_payment, hkp]
        · simp [update_payment_status, get_payment, hkp, hkq, ih]

end PaymentLink

namespace PaymentLink

/-! ### Concrete fixtures used by witnesses and counterexamples -/

/-- A well-behaved collaborator: parse, verify and settle all succeed and
settlement yields reference `"0xabc"`; challenges are rendered as JSON
with status 402; store calls do not fault. -/
def envDefault : Env where
  serviceAvailable := true
  construct := .ok ()
  parse := .ok { success := true, payment := some "proof", selected := some "req", error := none }
  verify := fun _ _ _ => .ok { isValid := true, error := none }
  settle := fun _ _ _ =>
    .ok { success := true, txHash := some "0xabc", txNetwork := some "base-sepolia", error := none }
  respond := fun e => (.structured e, 402)
  getFault := none
  updateFault := none
  now := 7

/-- A pending record as created by issuance. -/
def recPending : PaymentRecord :=
  { amount := 10, receiver := "0xR", status := "pending", txHash := none,
    createdAt := 1, updatedAt := 1 }

/-- A paid record with stored reference `"0xabc"`. -/
def recPaid : PaymentRecord :=
  { amount := 10, receiver := "0xR", status := "paid", txHash := some "0xabc",
    createdAt := 1, updatedAt := 2 }

/-- Store holding one pending payment `p1`. -/
def dbPending : Store := [("p1", recPending)]

/-- Store holding one paid payment `p1`. -/
def dbPaid : Store := [("p1", recPaid)]

/-! ### C1 — idempotency of `pay` on a Paid record -/

/-- C1: if the stored record for `pid` has status Paid with transaction
reference `t`, then any `pay` request for `pid` — whatever proof the
headers carry, i.e. for every collaborator oracle — returns the success
response `{"status": "paid", "tx": t}`, leaves the store unchanged, and
invokes no collaborator step at all (in particular neither parse, verify
nor settle). -/
theorem pay_paid_short_circuits (env : Env) (db : Store) (pid : String)
    (r : PaymentRecord) (t : String)
    (hok : env.getFault = none)
    (hget : get_payment db pid = some r)
    (hpaid : r.status = "paid") (ht : r.txHash = some t) :
    (pay env db pid).response = .paid (some t) ∧
    (pay env db pid).db = db ∧
    (pay env db pid).effects = [] := by
  simp [pay, pay_raw, hok, hget, hpaid, ht]

/-- C1 witness: a concrete paid record short-circuits with its stored
reference. -/
theorem pay_paid_short_circuits_witness :
    (pay envDefault dbPaid "p1").response = .paid (some "0xabc") ∧
    (pay envDefault dbPaid "p1").db = dbPaid ∧
    (pay envDefault dbPaid "p1").effects = [] :=
  pay_paid_short_circuits envDefault dbPaid "p1" recPaid "0xabc" rfl rfl rfl rfl

/-! ### C9 — unknown identifier -/

/-- C9: for an identifier with no record in the store, `pay` returns the
404 not-found response with the store unchanged and no collaborator step
invoked, and the status-inquiry endpoint returns its 404 not-found
response (it performs no write at all, being a pure read). -/
theorem unknown_id_not_found (env : Env) (db : Store) (pid : String)
    (hok : env.getFault = none)
    (hmiss : get_payment db pid = none) :
    (pay env db pid).response = .notFound ∧
    (pay env db pid).db = db ∧
    (pay env db pid).effects = [] ∧
    get_payment_status db pid = .notFound := by
  simp [pay, pay_raw, get_payment_status, hok, hmiss]

/-- C9 witness: an id that was never issued yields 404 on both endpoints. -/
theorem unknown_id_not_found_witness :
    (pay envDefault dbPending "ghost").response = .notFound ∧
    (pay envDefault dbPending "ghost").db = dbPending ∧
    (pay envDefault dbPending "ghost").effects = [] ∧
    get_payment_status dbPending "ghost" = .notFound :=
  unknown_id_not_found envDefault dbPending "ghost" rfl rfl

/-! ### C10 — `update_payment_status` hash-frame behaviour -/

/-- C10: updating a stored record with a `None` or empty transaction hash
rewrites only `status` and `updated_at` and keeps the previously stored
hash; a non-empty hash is written together with the status. -/
theorem update_payment_status_hash_frame (db : Store) (pid status : String)
    (now : Nat) (r : PaymentRecord)
    (hget : get_payment db pid = some r) :
    (∀ tx, txTruthy tx = false →
       get_payment (update_payment_status db pid status tx now) pid =
         some { r with status := status, updatedAt := now }) ∧
    (∀ h, h ≠ "" →
       get_payment (update_payment_status db pid status (some h) now) pid =
         some { r with status := status, txHash := some h, updatedAt := now }) := by
  constructor
  · intro tx htx
    simp [get_payment_update, hget, applyStatusUpdate, htx]
  · intro h hh
    simp [get_payment_update, hget, applyStatusUpdate, txTruthy, hh]

/-- C10 witness: on the concrete paid record, a `None` hash argument
leaves the stored hash `"0xabc"` in place, while hash `"0xdef"` replaces
it. -/
theorem update_payment_status_hash_frame_witness :
    get_payment (update_payment_status dbPaid "p1" "paid" none 9) "p1" =
      some { recPaid with status := "paid", updatedAt := 9 } ∧
    get_payment (update_payment_status dbPaid "p1" "paid" (some "0xdef") 9) "p1" =
      some { recPaid with status := "paid", txHash := some "0xdef", updatedAt := 9 } :=
  ⟨(update_payment_status_hash_frame dbPaid "p1" "paid" 9 recPaid rfl).1 none rfl,
   (update_payment_status_hash_frame dbPaid "p1" "paid" 9 recPaid rfl).2 "0xdef" (by decide)⟩

end PaymentLink

namespace PaymentLink

/-- Frame helper: a `pay` run either leaves the store exactly as it was,
or it performed a successful settle for `pid` and its only write is
`update_payment_status pid "paid" <settle reference>`. -/
theorem pay_db_unchanged_or_settled (env : Env) (db : Store) (pid : String) :
    (pay env db pid).db = db ∨
    ∃ p s sr, env.settle p s pid = .ok sr ∧ sr.success = true ∧
      (pay env db pid).response = .paid sr.txHash ∧
      (pay env db pid).db = update_payment_status db pid "paid" sr.txHash env.now := by
  cases hg : env.getFault with
  | some m => left; simp [pay, pay_raw, hg]
  | none =>
  cases hget : get_payment db pid with
  | none => left; simp [pay, pay_raw, hg, hget]
  | some record =>
  by_cases hpaid : record.status = "paid"
  · left; simp [pay, pay_raw, hg, hget, hpaid]
  · by_cases hav : env.serviceAvailable = false
    · left; simp [pay, pay_raw, hg, hget, hpaid, hav]
    · cases hc : env.construct with
      | error e => left; simp [pay, pay_raw, hg, hget, hpaid, hav, hc]
      | ok u =>
      cases u
      cases hp : env.parse with
      | error e => left; simp [pay, pay_raw, hg, hget, hpaid, hav, hc, hp]
      | ok pr =>
      by_cases hps : pr.success = false ∨ pr.error ≠ none
      · left; simp [pay, pay_raw, hg, hget, hpaid, hav, hc, hp, hps, create_x402_response]
      · cases hpp : pr.payment with
        | none =>
            left; simp [pay, pay_raw, hg, hget, hpaid, hav, hc, hp, hps, hpp, create_x402_response]
        | some p =>
        cases hsel : pr.selected with
        | none =>
            left
            simp [pay, pay_raw, hg, hget, hpaid, hav, hc, hp, hps, hpp, hsel, create_x402_response]
        | some s =>
        cases hv : env.verify p s pid with
        | error e =>
            left; simp [pay, pay_raw, hg, hget, hpaid, hav, hc, hp, hps, hpp, hsel, hv]
        | ok vr =>
        by_cases hvi : vr.isValid = false
        · left
          simp [pay, pay_raw, hg, hget, hpaid, hav, hc, hp, hps, hpp, hsel, hv, hvi,
                create_x402_response]
        · cases hs : env.settle p s pid with
          | error e =>
              left
              simp [pay, pay_raw, hg, hget, hpaid, hav, hc, hp, hps, hpp, hsel, hv, hvi, hs]
          | ok sr =>
          by_cases hss : sr.success = false
          · left
            simp [pay, pay_raw, hg, hget, hpaid, hav, hc, hp, hps, hpp, hsel, hv, hvi, hs, hss,
                  create_x402_response]
          · cases hu : env.updateFault with
            | some m =>
                left
                simp [pay, pay_raw, hg, hget, hpaid, hav, hc, hp, hps, hpp, hsel, hv, hvi, hs,
                      hss, hu]
            | none =>
                right
                refine ⟨p, s, sr, hs, ?_, ?_, ?_⟩
                · revert hss; cases sr.success <;> simp
                · simp [pay, pay_raw, hg, hget, hpaid, hav, hc, hp, hps, hpp, hsel, hv, hvi, hs,
                        hss, hu]
                · simp [pay, pay_raw, hg, hget, hpaid, hav, hc, hp, hps, hpp, hsel, hv, hvi, hs,
                        hss, hu]

end PaymentLink

namespace PaymentLink

/-! ### C2 — a challenge never mutates the record -/

/-- C2: whenever a `pay` run ends in a payment-required challenge (the
response produced by `create_x402_response`, covering a missing or
malformed proof, a verify rejection, and a settle refusal), the store is
exactly what it was before the request, and in particular the record for
the requested identifier is unchanged, so the identical request may be
retried. -/
theorem challenge_leaves_record_unchanged (env : Env) (db : Store) (pid : String)
    (h : (pay env db pid).response.isChallenge = true) :
    (pay env db pid).db = db ∧
    get_payment (pay env db pid).db pid = get_payment db pid := by
  rcases pay_db_unchanged_or_settled env db pid with hdb | ⟨p, s, sr, _, _, hresp, _⟩
  · exact ⟨hdb, by rw [hdb]⟩
  · rw [hresp] at h
    simp [Response.isChallenge] at h

/-- A request carrying no payment proof: `parse` reports no success. -/
def envNoProof : Env :=
  { envDefault with
      parse := .ok { success := false, payment := none, selected := none, error := none } }

/-- C2 witness: a proof-less request against a pending record is
challenged and the record survives untouched. -/
theorem challenge_leaves_record_unchanged_witness :
    (pay envNoProof dbPending "p1").db = dbPending ∧
    get_payment (pay envNoProof dbPending "p1").db "p1" = get_payment dbPending "p1" :=
  challenge_leaves_record_unchanged envNoProof dbPending "p1" rfl

/-! ### C3 — strict ordering of parse, verify, settle -/

/-- The parse step succeeded and yielded both a proof and a matched
requirement (main.py: `success` true, no `parse_error`, `payment` and
`selected_requirements` both non-`None`). -/
def parseSucceeded (env : Env) : Prop :=
  ∃ pr p s, env.parse = .ok pr ∧ pr.success = true ∧ pr.error = none ∧
    pr.payment = some p ∧ pr.selected = some s

/-- The verify step on the parsed proof succeeded (`is_valid` true). -/
def verifySucceeded (env : Env) (pid : String) : Prop :=
  ∃ pr p s vr, env.parse = .ok pr ∧ pr.payment = some p ∧ pr.selected = some s ∧
    env.verify p s pid = .ok vr ∧ vr.isValid = true

/-- C3: within one `pay` run the collaborator steps are strictly ordered:
verify is invoked only when parse was invoked and succeeded with a proof
and a matched requirement, and settle is invoked only when verify was
invoked and succeeded — so no later step ever runs after an earlier step
failed, challenged, or faulted. -/
theorem pay_strict_step_order (env : Env) (db : Store) (pid : String) :
    (Effect.verify ∈ (pay env db pid).effects →
       Effect.parse ∈ (pay env db pid).effects ∧ parseSucceeded env) ∧
    (Effect.settle ∈ (pay env db pid).effects →
       Effect.verify ∈ (pay env db pid).effects ∧ verifySucceeded env pid) := by
  cases hg : env.getFault with
  | some m => simp [pay, pay_raw, hg]
  | none =>
  cases hget : get_payment db pid with
  | none => simp [pay, pay_raw, hg, hget]
  | some record =>
  by_cases hpaid : record.status = "paid"
  · simp [pay, pay_raw, hg, hget, hpaid]
  · by_cases hav : env.serviceAvailable = false
    · simp [pay, pay_raw, hg, hget, hpaid, hav]
    · cases hc : env.construct with
      | error e => simp [pay, pay_raw, hg, hget, hpaid, hav, hc]
      | ok u =>
      cases u
      cases hp : env.parse with
      | error e => simp [pay, pay_raw, hg, hget, hpaid, hav, hc, hp]
      | ok pr =>
      by_cases hps : pr.success = false ∨ pr.error ≠ none
      · simp [pay, pay_raw, hg, hget, hpaid, hav, hc, hp, hps, create_x402_response]
      · have hps' : pr.success = true ∧ pr.error = none := by
          rcases not_or.mp hps with ⟨h1, h2⟩
          refine ⟨?_, not_not.mp h2⟩
          revert h1; cases pr.success <;> simp
        cases hpp : pr.payment with
        | none => simp [pay, pay_raw, hg, hget, hpaid, hav, hc, hp, hps, hpp, create_x402_response]
        | some p =>
        cases hsel : pr.selected with
        | none =>
            simp [pay, pay_raw, hg, hget, hpaid, hav, hc, hp, hps, hpp, hsel,
                  create_x402_response]
        | some s =>
        have hparse : parseSucceeded env := ⟨pr, p, s, hp, hps'.1, hps'.2, hpp, hsel⟩
        cases hv : env.verify p s pid with
        | error e =>
            simp [pay, pay_raw, hg, hget, hpaid, hav, hc, hp, hps, hpp, hsel, hv, hparse]
        | ok vr =>
        by_cases hvi : vr.isValid = false
        · simp [pay, pay_raw, hg, hget, hpaid, hav, hc, hp, hps, hpp, hsel, hv, hvi, hparse,
                create_x402_response]
        · have hvi' : vr.isValid = true := by revert hvi; cases vr.isValid <;> simp
          have hverify : verifySucceeded env pid := ⟨pr, p, s, vr, hp, hpp, hsel, hv, hvi'⟩
          cases hs : env.settle p s pid with
          | error e =>
              simp [pay, pay_raw, hg, hget, hpaid, hav, hc, hp, hps, hpp, hsel, hv, hvi,
                    hparse, hverify, hs]
          | ok sr =>
          by_cases hss : sr.success = false
          · simp [pay, pay_raw, hg, hget, hpaid, hav, hc, hp, hps, hpp, hsel, hv, hvi, hs, hss,
                  hparse, hverify, create_x402_response]
          · cases hu : env.updateFault with
            | some m =>
                simp [pay, pay_raw, hg, hget, hpaid, hav, hc, hp, hps, hpp, hsel, hv, hvi, hs,
                      hss, hu, hparse, hverify]
            | none =>
                simp [pay, pay_raw, hg, hget, hpaid, hav, hc, hp, hps, hpp, hsel, hv, hvi, hs,
                      hss, hu, hparse, hverify]

/-- C3 witness: on a run where all three steps execute, settle's presence
in the trace certifies that verify ran and succeeded, and verify's
presence certifies that parse ran and succeeded. -/
theorem pay_strict_step_order_witness :
    (Effect.parse ∈ (pay envDefault dbPending "p1").effects ∧ parseSucceeded envDefault) ∧
    (Effect.verify ∈ (pay envDefault dbPending "p1").effects ∧
      verifySucceeded envDefault "p1") :=
  ⟨(pay_strict_step_order envDefault dbPending "p1").1 (by decide),
   (pay_strict_step_order envDefault dbPending "p1").2 (by decide)⟩

end PaymentLink

namespace PaymentLink

/-! ### C4 — settle success writes Paid + reference -/

/-- A collaborator whose settle step succeeds but reports the empty string
as transaction reference. -/
def envEmptyRef : Env :=
  { envDefault with
      settle := fun _ _ _ =>
        .ok { success := true, txHash := some "", txNetwork := some "base-sepolia",
              error := none } }

/-- C4 counterexample: when settle succeeds with reference `R = ""`, the
success response carries `""` but the stored record's `tx_hash` is still
NULL — the Python truthiness test `if tx_hash:` in
`update_payment_status` skips the hash write for an empty string, so the
operation does not write `transactionReference = R` as the claim
states. -/
theorem settle_empty_reference_not_written :
    (pay envEmptyRef dbPending "p1").response = .paid (some "") ∧
    get_payment (pay envEmptyRef dbPending "p1").db "p1" =
      some { amount := 10, receiver := "0xR", status := "paid", txHash := none,
             createdAt := 1, updatedAt := 7 } ∧
    (get_payment (pay envEmptyRef dbPending "p1").db "p1").bind PaymentRecord.txHash ≠
      some "" := by
  refine ⟨rfl, rfl, by decide⟩

/-- C4 (amended): for every `pay` run in which the settle step succeeds
with a NON-EMPTY transaction reference `R`, the operation writes
status `"paid"` together with `tx_hash = R` to the record for that
identifier, refreshing `updated_at`, and returns the success response
carrying exactly `R`.  (The non-emptiness condition is forced by the
truthiness test in `update_payment_status`; see the counterexample.) -/
theorem settle_success_writes_paid (env : Env) (db : Store) (pid : String)
    (r : PaymentRecord) (pr : ParseResult) (p s : String) (vr : VerifyResult)
    (sr : SettleResult) (R : String)
    (hg : env.getFault = none)
    (hget : get_payment db pid = some r)
    (hnp : ¬ r.status = "paid")
    (hav : env.serviceAvailable = true)
    (hc : env.construct = .ok ())
    (hp : env.parse = .ok pr)
    (hps : pr.success = true) (hpe : pr.error = none)
    (hpp : pr.payment = some p) (hsel : pr.selected = some s)
    (hv : env.verify p s pid = .ok vr) (hvi : vr.isValid = true)
    (hs : env.settle p s pid = .ok sr) (hss : sr.success = true)
    (htx : sr.txHash = some R) (hR : R ≠ "")
    (hu : env.updateFault = none) :
    (pay env db pid).response = .paid (some R) ∧
    get_payment (pay env db pid).db pid =
      some { r with status := "paid", txHash := some R, updatedAt := env.now } := by
  have hresp : (pay env db pid).response = .paid (some R) := by
    simp [pay, pay_raw, hg, hget, hnp, hav, hc, hp, hps, hpe, hpp, hsel, hv, hvi, hs, hss,
          htx, hu]
  have hdb : (pay env db pid).db = update_payment_status db pid "paid" (some R) env.now := by
    simp [pay, pay_raw, hg, hget, hnp, hav, hc, hp, hps, hpe, hpp, hsel, hv, hvi, hs, hss,
          htx, hu]
  have ht : txTruthy (some R) = true := by simp [txTruthy, hR]
  refine ⟨hresp, ?_⟩
  rw [hdb, get_payment_update]
  simp [hget, applyStatusUpdate, ht]

/-- C4 witness: the default collaborator settles `p1` with reference
`"0xabc"`, which is written to the record and returned. -/
theorem settle_success_writes_paid_witness :
    (pay envDefault dbPending "p1").response = .paid (some "0xabc") ∧
    get_payment (pay envDefault dbPending "p1").db "p1" =
      some { recPending with status := "paid", txHash := some "0xabc", updatedAt := envDefault.now } :=
  settle_success_writes_paid envDefault dbPending "p1" recPending
    { success := true, payment := some "proof", selected := some "req", error := none }
    "proof" "req" { isValid := true, error := none }
    { success := true, txHash := some "0xabc", txNetwork := some "base-sepolia",
      error := none }
    "0xabc" rfl rfl (by decide) rfl rfl rfl rfl rfl rfl rfl rfl rfl rfl rfl rfl (by decide) rfl

end PaymentLink

namespace PaymentLink

/-! ### C5 — issuance validation -/

/-- C5 counterexample: an issuance request with a positive amount and an
EMPTY (but present) receiver is accepted — `receiver: str = Query(...)`
in main.py carries no emptiness constraint — so instead of failing with
422 and writing nothing, the endpoint returns 200 and persists a record
whose receiver is `""`. -/
theorem issuance_empty_receiver_accepted :
    (create_payment_link [] "id1" (some 5) (some "") 3).1 =
      .ok "id1" "http://localhost:8000/pay/id1" 5 "" ∧
    get_payment (create_payment_link [] "id1" (some 5) (some "") 3).2 "id1" =
      some { amount := 5, receiver := "", status := "pending", txHash := none,
             createdAt := 3, updatedAt := 3 } :=
  ⟨rfl, rfl⟩

/-- C5 (amended): issuance fails FastAPI validation with 422 — writing no
record — when the amount is ≤ 0 or when either required query parameter
is missing; an empty-but-present receiver is NOT validated and is
accepted together with a positive amount (see the counterexample). -/
theorem issuance_validation_rejects (db : Store) (newId : String) (a : Rat)
    (rcv : String) (amount : Option Rat) (receiver : Option String) (now : Nat) :
    (a ≤ 0 →
      create_payment_link db newId (some a) (some rcv) now = (.validationError, db)) ∧
    create_payment_link db newId none receiver now = (.validationError, db) ∧
    create_payment_link db newId amount none now = (.validationError, db) := by
  refine ⟨?_, ?_, ?_⟩
  · intro ha
    simp [create_payment_link, not_lt.mpr ha]
  · cases receiver <;> rfl
  · cases amount <;> rfl

/-- C5 witness: issuing with amount −5 is rejected and the empty store
stays empty. -/
theorem issuance_validation_rejects_witness :
    create_payment_link [] "id2" (some (-5)) (some "0xR") 0 = (.validationError, []) :=
  (issuance_validation_rejects [] "id2" (-5) "0xR" none none 0).1 (by norm_num)

/-! ### C6 — valid issuance creates a Pending record -/

/-- C6: for a valid issuance input (amount > 0, receiver non-empty) and a
freshly generated identifier not yet in the store, the endpoint returns
that identifier together with the URL `{baseUrl}/pay/{id}`, the given
amount and receiver, and afterwards the store maps the identifier to a
`pending` record with exactly that amount and receiver and no
transaction reference — all other records being untouched. -/
theorem issuance_valid_creates_pending (db : Store) (newId rcv : String) (a : Rat)
    (now : Nat) (ha : 0 < a) (hrcv : rcv ≠ "")
    (hfresh : get_payment db newId = none) :
    (create_payment_link db newId (some a) (some rcv) now).1 =
      .ok newId (app_base_url ++ "/pay/" ++ newId) a rcv ∧
    get_payment (create_payment_link db newId (some a) (some rcv) now).2 newId =
      some { amount := a, receiver := rcv, status := "pending", txHash := none,
             createdAt := now, updatedAt := now } ∧
    ∀ q, q ≠ newId →
      get_payment (create_payment_link db newId (some a) (some rcv) now).2 q =
        get_payment db q := by
  have hfresh' : (get_payment db newId).isSome = false := by simp [hfresh]
  refine ⟨?_, ?_, ?_⟩
  · simp [create_payment_link, ha, create_payment, hfresh']
  · simp [create_payment_link, ha, create_payment, hfresh', get_payment]
  · intro q hq
    have hq' : ¬ newId = q := fun h => hq h.symm
    simp [create_payment_link, ha, create_payment, hfresh', get_payment, hq']

/-- C6 witness: issuing for amount 5 and receiver `"0xR"` with fresh id
`"id1"` returns the expected URL and stores the pending record. -/
theorem issuance_valid_creates_pending_witness :
    (create_payment_link [] "id1" (some 5) (some "0xR") 3).1 =
      .ok "id1" (app_base_url ++ "/pay/" ++ "id1") 5 "0xR" ∧
    get_payment (create_payment_link [] "id1" (some 5) (some "0xR") 3).2 "id1" =
      some { amount := 5, receiver := "0xR", status := "pending", txHash := none,
             createdAt := 3, updatedAt := 3 } :=
  ⟨(issuance_valid_creates_pending [] "id1" "0xR" 5 3 (by norm_num) (by decide) rfl).1,
   (issuance_valid_creates_pending [] "id1" "0xR" 5 3 (by norm_num) (by decide) rfl).2.1⟩

end PaymentLink

namespace PaymentLink

/-! ### C7 — reference present iff Paid -/

/-- Stores reachable from the fresh (empty) table through the service's
two writing endpoints: link issuance (arbitrary inputs, request-scoped
fresh id) and `pay` (arbitrary collaborator behaviour). -/
inductive Reachable : Store → Prop where
  | init : Reachable []
  | issue (db : Store) (newId : String) (amount : Option Rat)
      (receiver : Option String) (now : Nat) :
      Reachable db → Reachable (create_payment_link db newId amount receiver now).2
  | payReq (db : Store) (env : Env) (pid : String) :
      Reachable db → Reachable (pay env db pid).db

/-- C7 counterexample: a reachable record whose status is `"paid"` but
whose transaction reference is absent — issue a link, then settle it
with the collaborator reporting success with reference `""`; the
truthiness test in `update_payment_status` drops the reference, breaking
the "present iff Paid" invariant. -/
theorem txref_iff_paid_counterexample :
    Reachable
      (pay envEmptyRef (create_payment_link [] "p1" (some 10) (some "0xR") 1).2 "p1").db ∧
    get_payment
      (pay envEmptyRef (create_payment_link [] "p1" (some 10) (some "0xR") 1).2 "p1").db
      "p1" =
      some { amount := 10, receiver := "0xR", status := "paid", txHash := none,
             createdAt := 1, updatedAt := 7 } :=
  ⟨.payReq _ envEmptyRef "p1" (.issue [] "p1" (some 10) (some "0xR") 1 .init), rfl⟩

/-- The store written by issuance: either untouched (validation failure or
duplicate id) or extended with one fresh `pending` record. -/
theorem create_payment_link_db (db : Store) (newId : String) (amount : Option Rat)
    (receiver : Option String) (now : Nat) :
    (create_payment_link db newId amount receiver now).2 = db ∨
    ∃ a rcv, amount = some a ∧ receiver = some rcv ∧
      get_payment db newId = none ∧
      (create_payment_link db newId amount receiver now).2 =
        (newId, { amount := a, receiver := rcv, status := "pending", txHash := none,
                  createdAt := now, updatedAt := now }) :: db := by
  cases amount with
  | none => left; rfl
  | some a =>
    cases receiver with
    | none => left; rfl
    | some rcv =>
      by_cases ha : 0 < a
      · cases hfresh : get_payment db newId with
        | some r => left; simp [create_payment_link, ha, create_payment, hfresh]
        | none =>
            right
            refine ⟨a, rcv, rfl, rfl, rfl, ?_⟩
            simp [create_payment_link, ha, create_payment, hfresh]
      · left; simp [create_payment_link, ha]

/-- The settle interface promise taken from the spec (`settle → (transactionReference, networkId)`): a successful settle outcome carries a
non-empty transaction reference. -/
def goodSettles (env : Env) : Prop :=
  ∀ p s i sr, env.settle p s i = .ok sr → sr.success = true →
    ∃ R, sr.txHash = some R ∧ R ≠ ""

/-- Reachability when every collaborator honours the settle interface
promise. -/
inductive ReachableGood : Store → Prop where
  | init : ReachableGood []
  | issue (db : Store) (newId : String) (amount : Option Rat)
      (receiver : Option String) (now : Nat) :
      ReachableGood db → ReachableGood (create_payment_link db newId amount receiver now).2
  | payReq (db : Store) (env : Env) (pid : String) :
      goodSettles env → ReachableGood db → ReachableGood (pay env db pid).db

/-- The "reference present iff Paid" record invariant over a store. -/
def txInvariant (db : Store) : Prop :=
  ∀ pid r, get_payment db pid = some r → (r.txHash ≠ none ↔ r.status = "paid")

/-- C7 (amended): provided every successful settle outcome carries a
non-empty transaction reference (the collaborator interface of the spec),
every record of every reachable store has its transaction reference
present exactly when its status is `"paid"`: issuance creates `pending`
records with no reference, and the only status write of `pay` stores
`"paid"` together with the settle reference.  (Without the non-emptiness
proviso the invariant fails — see the counterexample.) -/
theorem txref_present_iff_paid (db : Store) (h : ReachableGood db)
    (pid : String) (r : PaymentRecord)
    (hget : get_payment db pid = some r) :
    r.txHash ≠ none ↔ r.status = "paid" := by
  induction h generalizing pid r with
  | init => simp [get_payment] at hget
  | issue db newId amount receiver now hdb ih =>
      rcases create_payment_link_db db newId amount receiver now with heq |
        ⟨a, rcv, -, -, hfresh, heq⟩
      · rw [heq] at hget; exact ih pid r hget
      · rw [heq] at hget
        by_cases hk : newId = pid
        · rw [get_payment, if_pos hk] at hget
          cases hget
          simp
        · rw [get_payment, if_neg hk] at hget
          exact ih pid r hget
  | payReq db env pid' hgood hdb ih =>
      rcases pay_db_unchanged_or_settled env db pid' with heq | ⟨p, s, sr, hs, hss, -, heq⟩
      · rw [heq] at hget; exact ih pid r hget
      · rw [heq, get_payment_update] at hget
        by_cases hq : pid = pid'
        · rw [if_pos hq] at hget
          obtain ⟨R, hR, hRne⟩ := hgood p s pid' sr hs hss
          cases hgr : get_payment db pid with
          | none => rw [hgr] at hget; simp at hget
          | some r0 =>
              rw [hgr] at hget
              have ht : txTruthy (some R) = true := by simp [txTruthy, hRne]
              have hr : r = applyStatusUpdate r0 "paid" sr.txHash env.now := by
                simpa using hget.symm
              rw [hr]
              simp [applyStatusUpdate, hR, ht]
        · rw [if_neg hq] at hget
          exact ih pid r hget

/-- Helper for the C7 witness: the default collaborator honours the settle
interface promise. -/
theorem goodSettles_envDefault : goodSettles envDefault := by
  intro p s i sr hs _
  have hsr : sr = { success := true, txHash := some "0xabc", txNetwork := some "base-sepolia", error := none } := by
    simpa [envDefault] using hs.symm
  rw [hsr]
  exact ⟨"0xabc", rfl, by decide⟩

/-- C7 witness: on the concrete reachable store obtained by issuing `p1`
and settling it with reference `"0xabc"`, the stored record satisfies
the invariant. -/
theorem txref_present_iff_paid_witness :
    ((some "0xabc" : Option String) ≠ none ↔ ("paid" : String) = "paid") :=
  txref_present_iff_paid
    (pay envDefault (create_payment_link [] "p1" (some 10) (some "0xR") 1).2 "p1").db
    (.payReq _ envDefault "p1" goodSettles_envDefault
      (.issue [] "p1" (some 10) (some "0xR") 1 .init))
    "p1"
    { amount := 10, receiver := "0xR", status := "paid", txHash := some "0xabc",
      createdAt := 1, updatedAt := 7 }
    rfl

end PaymentLink

namespace PaymentLink

/-! ### C8 — unexpected faults become internal errors -/

/-- C8: faults are reported as internal errors, never as challenges, and
never mutate the store.  (1) Every run ending in an internal-error
response leaves the store exactly as it was (no partial mutation) and
that response is not a payment-required challenge and has status 500;
(2) a faulting store read is converted by the global exception handler
into the 500 response; (3)–(6) a fault raised by the service constructor,
parse, verify, or settle — whenever that step was actually invoked —
yields an internal-error response; (7) a faulting status write is
converted into the 500 response and the record stays unwritten. -/
theorem pay_fault_is_internal_error (env : Env) (db : Store) (pid : String) :
    ((pay env db pid).response.isInternalError = true →
       (pay env db pid).db = db ∧ (pay env db pid).response.isChallenge = false ∧
       (pay env db pid).response.statusCode = 500) ∧
    (∀ m, env.getFault = some m → (pay env db pid).response = .internalError m) ∧
    (∀ m, env.construct = .error m → Effect.construct ∈ (pay env db pid).effects →
       (pay env db pid).response.isInternalError = true) ∧
    (∀ m, env.parse = .error m → Effect.parse ∈ (pay env db pid).effects →
       (pay env db pid).response.isInternalError = true) ∧
    (∀ m, (∀ p s, env.verify p s pid = .error m) →
       Effect.verify ∈ (pay env db pid).effects →
       (pay env db pid).response.isInternalError = true) ∧
    (∀ m, (∀ p s, env.settle p s pid = .error m) →
       Effect.settle ∈ (pay env db pid).effects →
       (pay env db pid).response.isInternalError = true) ∧
    (∀ m, env.updateFault = some m → Effect.storeUpdate ∈ (pay env db pid).effects →
       (pay env db pid).response = .internalError m ∧ (pay env db pid).db = db) := by
  have hnotchal : ∀ resp : Response, resp.isInternalError = true →
      resp.isChallenge = false ∧ resp.statusCode = 500 := by
    intro resp h
    cases resp <;>
      simp_all [Response.isInternalError, Response.isChallenge, Response.statusCode]
  refine ⟨?_, ?_⟩
  · intro h
    have hdb : (pay env db pid).db = db := by
      rcases pay_db_unchanged_or_settled env db pid with hdb | ⟨_, _, _, _, _, hresp, -⟩
      · exact hdb
      · rw [hresp] at h; simp [Response.isInternalError] at h
    exact ⟨hdb, (hnotchal _ h).1, (hnotchal _ h).2⟩
  cases hg : env.getFault with
  | some m0 =>
      simp [pay, pay_raw, hg, global_exception_handler, Response.isInternalError]
  | none =>
  cases hget : get_payment db pid with
  | none => simp [pay, pay_raw, hg, hget]
  | some record =>
  by_cases hpaid : record.status = "paid"
  · simp [pay, pay_raw, hg, hget, hpaid]
  · by_cases hav : env.serviceAvailable = false
    · simp [pay, pay_raw, hg, hget, hpaid, hav]
    · cases hc : env.construct with
      | error e =>
          simp [pay, pay_raw, hg, hget, hpaid, hav, hc, Response.isInternalError]
      | ok u =>
      cases u
      cases hp : env.parse with
      | error e =>
          simp [pay, pay_raw, hg, hget, hpaid, hav, hc, hp, Response.isInternalError]
      | ok pr =>
      by_cases hps : pr.success = false ∨ pr.error ≠ none
      · simp [pay, pay_raw, hg, hget, hpaid, hav, hc, hp, hps, create_x402_response]
      · cases hpp : pr.payment with
        | none => simp [pay, pay_raw, hg, hget, hpaid, hav, hc, hp, hps, hpp,
                        create_x402_response]
        | some p =>
        cases hsel : pr.selected with
        | none => simp [pay, pay_raw, hg, hget, hpaid, hav, hc, hp, hps, hpp, hsel,
                        create_x402_response]
        | some s =>
        cases hv : env.verify p s pid with
        | error e =>
            simp [pay, pay_raw, hg, hget, hpaid, hav, hc, hp, hps, hpp, hsel, hv,
                  Response.isInternalError]
        | ok vr =>
        by_cases hvi : vr.isValid = false
        · refine ⟨?_, ?_, ?_, ?_, ?_, ?_⟩
          · simp [pay, pay_raw, hg, hget, hpaid, hav, hc, hp, hps, hpp, hsel, hv, hvi]
          · simp [hc]
          · simp [hp]
          · intro m hm _
            have h2 := hm p s
            rw [hv] at h2
            exact absurd h2 (by simp)
          · simp [pay, pay_raw, hg, hget, hpaid, hav, hc, hp, hps, hpp, hsel, hv, hvi,
                  create_x402_response]
          · simp [pay, pay_raw, hg, hget, hpaid, hav, hc, hp, hps, hpp, hsel, hv, hvi,
                  create_x402_response]
        · cases hs : env.settle p s pid with
          | error e =>
              simp [pay, pay_raw, hg, hget, hpaid, hav, hc, hp, hps, hpp, hsel, hv, hvi, hs,
                    Response.isInternalError]
          | ok sr =>
          by_cases hss : sr.success = false
          · refine ⟨?_, ?_, ?_, ?_, ?_, ?_⟩
            · simp [pay, pay_raw, hg, hget, hpaid, hav, hc, hp, hps, hpp, hsel, hv, hvi, hs,
                    hss]
            · simp [hc]
            · simp [hp]
            · intro m hm _
              have h2 := hm p s
              rw [hv] at h2
              exact absurd h2 (by simp)
            · intro m hm _
              have h2 := hm p s
              rw [hs] at h2
              exact absurd h2 (by simp)
            · simp [pay, pay_raw, hg, hget, hpaid, hav, hc, hp, hps, hpp, hsel, hv, hvi, hs,
                    hss, create_x402_response]
          · cases hu : env.updateFault with
            | some m0 =>
                simp [pay, pay_raw, hg, hget, hpaid, hav, hc, hp, hps, hpp, hsel, hv, hvi,
                      hs, hss, hu, global_exception_handler, Response.isInternalError]
            | none =>
                refine ⟨?_, ?_, ?_, ?_, ?_, ?_⟩
                · simp [pay, pay_raw, hg, hget, hpaid, hav, hc, hp, hps, hpp, hsel, hv, hvi,
                        hs, hss, hu]
                · simp [hc]
                · simp [hp]
                · intro m hm _
                  have h2 := hm p s
                  rw [hv] at h2
                  exact absurd h2 (by simp)
                · intro m hm _
                  have h2 := hm p s
                  rw [hs] at h2
                  exact absurd h2 (by simp)
                · simp [hu]

/-- A collaborator environment whose store read raises. -/
def envGetFault : Env := { envDefault with getFault := some "db unavailable" }

/-- C8 witness: a faulting store read yields the 500 internal-error
response, which is not a challenge, and the store is untouched. -/
theorem pay_fault_is_internal_error_witness :
    (pay envGetFault dbPending "p1").response = .internalError "db unavailable" ∧
    (pay envGetFault dbPending "p1").db = dbPending ∧
    (pay envGetFault dbPending "p1").response.isChallenge = false ∧
    (pay envGetFault dbPending "p1").response.statusCode = 500 :=
  ⟨(pay_fault_is_internal_error envGetFault dbPending "p1").2.1 "db unavailable" rfl,
   ((pay_fault_is_internal_error envGetFault dbPending "p1").1 rfl).1,
   ((pay_fault_is_internal_error envGetFault dbPending "p1").1 rfl).2.1,
   ((pay_fault_is_internal_error envGetFault dbPending "p1").1 rfl).2.2⟩

end PaymentLink
